/- Verification of the tapServe ordering backend (src/server.js).

   Shallow embedding conventions:
   * JavaScript numbers (prices, tax rates, totals) are modelled as exact
     rationals; `Number.prototype.toFixed` is modelled by `formatFixed`,
     following the ECMAScript rule (nearest, ties away from zero toward the
     larger value).
   * The Supabase store is a record of row lists; every query the order
     handlers issue is replayed on those lists, and the sequence of issued
     queries is returned as an explicit `StoreOp` trace.
   * Fallible handler code returns explicit result constructors that carry
     the HTTP status used by the source (400 / 404 / 500 / 200).
   * `parseInt(x) || 1` is modelled by `coerceQty` over a small type of
     client-supplied JSON values (absent / integer / string); radix and
     exponent notation corner cases of `parseInt` are out of scope, sign,
     digit-prefix parsing and NaN-falsiness are modelled.
   * WhatsApp sends and socket broadcasts of the status-update handler are
     returned as an `UpdateEvent` trace; the messaging feature flag
     (`META_PHONE_ID && META_ACCESS_TOKEN`) is a boolean parameter. -/
import Mathlib

namespace TapServe

/-- Restaurant row; `restaurant.settings.tax_rate || 0` in the source is
modelled by an optional rate read with `Option.getD 0`. -/
structure Restaurant where
  id : String
  name : String
  tax_rate : Option ℚ
deriving Repr, DecidableEq

/-- Row of `menu_items` (the columns the order handler selects). -/
structure MenuItem where
  id : String
  restaurant_id : String
  name : String
  price : ℚ
  is_available : Bool
deriving Repr, DecidableEq

/-- Row of `item_customization_categories` (links options to a menu item). -/
structure CustCategory where
  id : String
  menu_item_id : String
deriving Repr, DecidableEq

/-- Row of `customization_options`. -/
structure CustomizationOption where
  id : String
  category_id : String
  name : String
  price : ℚ
  is_available : Bool
deriving Repr, DecidableEq

/-- Resolved customization detail pushed into `customizationDetails`
(server.js lines 299-303). -/
structure CustDetail where
  id : String
  name : String
  price : ℚ
deriving Repr, DecidableEq

/-- Entry of `calculatedItems` (server.js lines 311-319). -/
structure ResolvedItem where
  id : String
  name : String
  price : ℚ
  quantity : ℤ
  customizations : List CustDetail
  special_notes : String
  item_total : ℚ
deriving Repr, DecidableEq

/-- Row of `orders` as inserted by the creation handler (lines 330-341). -/
structure OrderRow where
  id : String
  restaurant_id : String
  order_number : String
  customer_name : String
  phone_number : String
  order_source : String
  order_items : List ResolvedItem
  total_amount : String
  user_input : String
  status : String
  created_at : String
  updated_at : String
deriving Repr, DecidableEq

/-- The external store: one list per table the handlers touch. -/
structure Store where
  restaurants : List Restaurant
  menu_items : List MenuItem
  cust_categories : List CustCategory
  customization_options : List CustomizationOption
  orders : List OrderRow
deriving Repr, DecidableEq

/-- Client-supplied `quantity` JSON value: absent, a number (modelled as an
integer), or an arbitrary string. -/
inductive QtyVal where
  | absent
  | num (n : ℤ)
  | str (s : String)
deriving Repr, DecidableEq

/-- One entry of a request line's `customizations` array.  Only `id` is ever
read by the server; `client_name` / `client_price` model extra fields a
tampering client may attach. -/
structure CustSel where
  id : String
  client_name : Option String
  client_price : Option ℚ
deriving Repr, DecidableEq

/-- One entry of the request `items` array (untrusted).  `client_name` and
`client_price` model client-supplied name/price fields, which the handler
never reads. -/
structure OrderItemReq where
  id : String
  quantity : QtyVal
  client_name : Option String
  client_price : Option ℚ
  customizations : List CustSel
  special_notes : Option String
deriving Repr, DecidableEq

/-- Body of `POST /api/restaurants/:restaurantId/orders`. -/
structure OrderReq where
  customer_name : Option String
  phone_number : Option String
  order_type : Option String
  items : Option (List OrderItemReq)
  notes : Option String
deriving Repr, DecidableEq

/-- Decimal digit prefix accumulator for the `parseInt` model. -/
def digitsPrefix : List Char → Option ℕ → Option ℕ
  | [], acc => acc
  | c :: cs, acc =>
    if c.isDigit then digitsPrefix cs (some (10 * acc.getD 0 + (c.toNat - 48))) else acc

/-- JS `parseInt` on a string: skip leading whitespace, optional sign,
longest decimal digit prefix; `none` models NaN. -/
def jsParseIntStr (s : String) : Option ℤ :=
  match s.toList.dropWhile (fun c => c.isWhitespace) with
  | '-' :: t => (digitsPrefix t none).map (fun n => -(n : ℤ))
  | '+' :: t => (digitsPrefix t none).map (fun n => (n : ℤ))
  | t => (digitsPrefix t none).map (fun n => (n : ℤ))

/-- JS `parseInt` applied to the client `quantity` value. -/
def jsParseInt : QtyVal → Option ℤ
  | .absent => none
  | .num n => some n
  | .str s => jsParseIntStr s

/-- `const quantity = parseInt(orderItem.quantity) || 1` (line 281): NaN and
0 are falsy and fall back to 1; every other parsed integer is kept. -/
def coerceQty (v : QtyVal) : ℤ :=
  match jsParseInt v with
  | none => 1
  | some n => if n = 0 then 1 else n

/-- Integer that `toFixed(f)` renders, per the ECMAScript rounding rule
(closest multiple of 10 ^ (-f), ties to the larger value, sign split off
first). -/
def jsRoundAt (f : ℕ) (q : ℚ) : ℤ :=
  if q < 0 then -((-q) * ((10 : ℚ) ^ f) + 1 / 2).floor else (q * ((10 : ℚ) ^ f) + 1 / 2).floor

/-- Left-pad a natural with zeros to `f` digits. -/
def padZeros (f : ℕ) (n : ℕ) : String :=
  String.mk (List.replicate (f - (toString n).length) '0') ++ toString n

/-- Model of `Number.prototype.toFixed` on exact rationals. -/
def formatFixed (f : ℕ) (q : ℚ) : String :=
  (if jsRoundAt f q < 0 then "-" else "")
    ++ toString ((jsRoundAt f q).natAbs / 10 ^ f)
    ++ (if f = 0 then "" else "." ++ padZeros f ((jsRoundAt f q).natAbs % 10 ^ f))

/-- JS truthiness of an optional string field (undefined and "" are falsy). -/
def truthy : Option String → Bool
  | none => false
  | some s => s != ""

/-- The `!orderItems || orderItems.length === 0` part of the validation on
line 234. -/
def itemsMissingOrEmpty : Option (List OrderItemReq) → Bool
  | none => true
  | some l => l.isEmpty

/-- `order_type?.toLowerCase() || 'walk-in'` (line 336). -/
def orderSourceOf : Option String → String
  | none => "walk-in"
  | some t => if t.toLower = "" then "walk-in" else t.toLower

/-- A store query or write issued by the creation handler, in order. -/
inductive StoreOp where
  | selectRestaurant (restaurantId : String)
  | selectMenuItems (restaurantId : String) (itemIds : List String)
  | selectCustomizations (ids : List String)
  | insertOrder (row : OrderRow)
deriving Repr, DecidableEq

/-- The `customization_options ... in('id', customizationIds)` query
(lines 291-294): filtered by option id only. -/
def lookupCustomizations (store : Store) (ids : List String) : List CustomizationOption :=
  store.customization_options.filter (fun o => ids.contains o.id)

/-- The `menu_items` query of the creation handler (lines 254-258):
restricted to the restaurant and to the requested ids. -/
def menuItemsFor (store : Store) (restaurantId : String) (itemIds : List String) : List MenuItem :=
  store.menu_items.filter (fun m => m.restaurant_id == restaurantId && itemIds.contains m.id)

/-- `menuItems.filter(item => !item.is_available)` (line 263). -/
def unavailableOf (items : List MenuItem) : List MenuItem :=
  items.filter (fun m => !m.is_available)

/-- `orderItems.map(item => item.id)` (line 253). -/
def requestedIds (req : OrderReq) : List String :=
  (req.items.getD []).map (fun oi => oi.id)

/-- One iteration of the pricing loop (lines 275-320): find the fetched menu
item (throwing `Item ... not found` otherwise), coerce the quantity, resolve
the line's customization ids in one per-line query, and build the
calculated item. -/
def resolveLine (store : Store) (menuItems : List MenuItem) (oi : OrderItemReq) :
    Except String ResolvedItem × List StoreOp :=
  match menuItems.find? (fun m => m.id == oi.id) with
  | none => (.error ("Item " ++ oi.id ++ " not found"), [])
  | some menuItem =>
    let customizationDetails :=
      if oi.customizations.isEmpty then []
      else
        (lookupCustomizations store (oi.customizations.map (fun c => c.id))).map
          (fun o => ({ id := o.id, name := o.name, price := o.price } : CustDetail))
    let lineOps : List StoreOp :=
      if oi.customizations.isEmpty then []
      else [.selectCustomizations (oi.customizations.map (fun c => c.id))]
    (.ok { id := menuItem.id, name := menuItem.name, price := menuItem.price,
           quantity := coerceQty oi.quantity,
           customizations := customizationDetails,
           special_notes := oi.special_notes.getD "",
           item_total := (menuItem.price + (customizationDetails.map (fun d => d.price)).sum)
             * ((coerceQty oi.quantity : ℤ) : ℚ) },
     lineOps)

/-- The pricing loop over all request lines, threading the running subtotal
and the query trace; the first failing line aborts the whole loop, as the
`throw` on line 278 does. -/
def resolveLines (store : Store) (menuItems : List MenuItem) :
    List OrderItemReq → Except String (List ResolvedItem × ℚ) × List StoreOp
  | [] => (.ok ([], 0), [])
  | oi :: rest =>
    match resolveLine store menuItems oi with
    | (.error e, ops) => (.error e, ops)
    | (.ok ri, ops) =>
      match resolveLines store menuItems rest with
      | (.error e, ops2) => (.error e, ops ++ ops2)
      | (.ok (ris, sub), ops2) => (.ok (ri :: ris, ri.item_total + sub), ops ++ ops2)

/-- Success payload of order creation (lines 388-399): amounts are the
`toFixed` strings the JSON response carries. -/
structure OrderResponse where
  id : String
  order_number : String
  items : List ResolvedItem
  subtotal : String
  tax : String
  total : String
  tax_rate : String
deriving Repr, DecidableEq

/-- The JSON order object of the 200 response: `tax = subtotal * taxRate`,
`total = subtotal + tax` (lines 322-323), each rounded once by `toFixed(2)`
at response time. -/
def mkOrderResponse (restaurant : Restaurant) (orderId orderNumber : String)
    (items : List ResolvedItem) (subtotal : ℚ) : OrderResponse :=
  { id := orderId, order_number := orderNumber, items := items,
    subtotal := formatFixed 2 subtotal,
    tax := formatFixed 2 (subtotal * restaurant.tax_rate.getD 0),
    total := formatFixed 2 (subtotal + subtotal * restaurant.tax_rate.getD 0),
    tax_rate := formatFixed 1 (restaurant.tax_rate.getD 0 * 100) ++ "%" }

/-- The row inserted into `orders` (lines 330-341): only the grand total is
persisted, rounded once by `toFixed(2)`. -/
def mkOrderRow (restaurant : Restaurant) (restaurantId : String) (req : OrderReq)
    (orderId orderNumber nowIso : String) (items : List ResolvedItem) (subtotal : ℚ) : OrderRow :=
  { id := orderId, restaurant_id := restaurantId, order_number := orderNumber,
    customer_name := req.customer_name.getD "", phone_number := req.phone_number.getD "",
    order_source := orderSourceOf req.order_type,
    order_items := items,
    total_amount := formatFixed 2 (subtotal + subtotal * restaurant.tax_rate.getD 0),
    user_input := req.notes.getD "",
    status := "new", created_at := nowIso, updated_at := nowIso }

/-- Outcome of the creation handler, tagged the way the source maps it to an
HTTP status. -/
inductive CreateResult where
  | badRequest (msg : String) (unavailable : Option (List String))
  | serverError (msg : String)
  | ok (resp : OrderResponse)
deriving Repr, DecidableEq

/-- HTTP status the creation handler answers with. -/
def statusCode : CreateResult → ℕ
  | .badRequest _ _ => 400
  | .serverError _ => 500
  | .ok _ => 200

/-- The 400 message of the field validation (lines 235-237). -/
def missingFieldsMsg : String :=
  "Missing required fields: customer_name, phone_number, items"

/-- `POST /api/restaurants/:restaurantId/orders` (lines 229-405).  Order of
effects mirrors the source: field validation (no store access), restaurant
settings read (a failing `.single()` is thrown and caught as a 500),
menu-item fetch, all-or-nothing availability check (400), pricing loop
(per-line `Item ... not found` throws surface as 500), and finally the
insert.  The WhatsApp confirmation and the `new-kds-order` broadcast carry
no decision logic used by any claim and are outside the modelled trace. -/
def createOrder (store : Store) (restaurantId : String) (req : OrderReq)
    (orderId orderNumber nowIso : String) : CreateResult × List StoreOp :=
  if !truthy req.customer_name || !truthy req.phone_number || itemsMissingOrEmpty req.items then
    (.badRequest missingFieldsMsg none, [])
  else
    match store.restaurants.find? (fun r => r.id == restaurantId) with
    | none => (.serverError "Restaurant settings lookup failed", [.selectRestaurant restaurantId])
    | some restaurant =>
      if !(unavailableOf (menuItemsFor store restaurantId (requestedIds req))).isEmpty then
        (.badRequest "Some items are currently unavailable"
            (some ((unavailableOf (menuItemsFor store restaurantId (requestedIds req))).map
              (fun m => m.name))),
         [.selectRestaurant restaurantId, .selectMenuItems restaurantId (requestedIds req)])
      else
        match resolveLines store (menuItemsFor store restaurantId (requestedIds req))
            (req.items.getD []) with
        | (.error e, lineOps) =>
          (.serverError e,
           [.selectRestaurant restaurantId, .selectMenuItems restaurantId (requestedIds req)]
             ++ lineOps)
        | (.ok (calculatedItems, subtotal), lineOps) =>
          (.ok (mkOrderResponse restaurant orderId orderNumber calculatedItems subtotal),
           [.selectRestaurant restaurantId, .selectMenuItems restaurantId (requestedIds req)]
             ++ lineOps
             ++ [.insertOrder
                  (mkOrderRow restaurant restaurantId req orderId orderNumber nowIso
                    calculatedItems subtotal)])

/-- Whether a trace contains an `orders` insert. -/
def hasInsert (ops : List StoreOp) : Bool :=
  ops.any (fun op => match op with | .insertOrder _ => true | _ => false)

/-- The customization-option queries of a trace, each as its id list. -/
def custLookups (ops : List StoreOp) : List (List String) :=
  ops.filterMap (fun op => match op with | .selectCustomizations ids => some ids | _ => none)

/-- The rows inserted into `orders` along a trace. -/
def insertedRows (ops : List StoreOp) : List OrderRow :=
  ops.filterMap (fun op => match op with | .insertOrder row => some row | _ => none)

/-- Subtotal string of a successful creation result. -/
def respSubtotal : CreateResult → Option String
  | .ok resp => some resp.subtotal
  | _ => none

/-- Tax string of a successful creation result. -/
def respTax : CreateResult → Option String
  | .ok resp => some resp.tax
  | _ => none

/-- Total string of a successful creation result. -/
def respTotal : CreateResult → Option String
  | .ok resp => some resp.total
  | _ => none

/-- Resolved per-line quantities of a successful creation result. -/
def resolvedQuantities : CreateResult → List ℤ
  | .ok resp => resp.items.map (fun ri => ri.quantity)
  | _ => []

/-- `GET /api/menu-items/:itemId/customizations` (lines 98-144): category
rows for the item, then options restricted to those categories AND to
`is_available = true`, grouped under their category. -/
def getItemCustomizations (store : Store) (itemId : String) :
    List (CustCategory × List CustomizationOption) :=
  let categories := store.cust_categories.filter (fun c => c.menu_item_id == itemId)
  if categories.isEmpty then []
  else
    let categoryIds := categories.map (fun c => c.id)
    let options := store.customization_options.filter
      (fun o => categoryIds.contains o.category_id && o.is_available)
    categories.map (fun c => (c, options.filter (fun o => o.category_id == c.id)))

/-- WhatsApp template for `new → preparing` (lines 447-449). -/
def preparingMsg (orderNumber : String) : String :=
  "👨‍🍳 *Order Update*\n\nOrder #" ++ orderNumber ++ "\n\nYour order is now being prepared! 🔥"

/-- WhatsApp template for `preparing → ready` (lines 453-455). -/
def readyMsg (orderNumber : String) : String :=
  "✅ *Order Ready!*\n\nOrder #" ++ orderNumber ++ "\n\nYour order is ready for pickup! 🎉"

/-- WhatsApp template for `ready → completed` (lines 459-461). -/
def completedMsg (orderNumber : String) : String :=
  "🎊 *Order Completed*\n\nOrder #" ++ orderNumber ++ "\n\nThank you for your order! 😊"

/-- The `message / shouldSend` if-chain of the status handler
(lines 443-463): `some` exactly on the three recognized transitions. -/
def statusMessage (newStatus oldStatus orderNumber : String) : Option String :=
  if newStatus == "preparing" && oldStatus == "new" then some (preparingMsg orderNumber)
  else if newStatus == "ready" && oldStatus == "preparing" then some (readyMsg orderNumber)
  else if newStatus == "completed" && oldStatus == "ready" then some (completedMsg orderNumber)
  else none

/-- The three specially handled transitions, written (old, new). -/
def recognizedTransition (oldStatus newStatus : String) : Bool :=
  (oldStatus == "new" && newStatus == "preparing")
    || (oldStatus == "preparing" && newStatus == "ready")
    || (oldStatus == "ready" && newStatus == "completed")

/-- Observable side effect of the status-update handler. -/
inductive UpdateEvent where
  | whatsapp (phone message : String)
  | broadcast (orderId status : String)
deriving Repr, DecidableEq

/-- Outcome of the status-update handler. -/
inductive UpdateResult where
  | fetchFailed (msg : String)
  | ok (row : OrderRow)
deriving Repr, DecidableEq

/-- HTTP status of the status-update handler. -/
def updStatusCode : UpdateResult → ℕ
  | .fetchFailed _ => 500
  | .ok _ => 200

/-- `PUT /api/orders/:orderId/status` (lines 410-484): read the current row
(`.single()` failure answers 500 with no events), write the new status, send
at most one templated WhatsApp message — only when messaging is configured,
the stored phone number is truthy, and the (old, new) pair is recognized —
then always emit one `order_updated` broadcast with the new status. -/
def updateOrderStatus (store : Store) (messagingConfigured : Bool)
    (orderId newStatus nowIso : String) : UpdateResult × List UpdateEvent :=
  match store.orders.find? (fun o => o.id == orderId) with
  | none => (.fetchFailed "Row not found", [])
  | some currentOrder =>
    let updated := { currentOrder with status := newStatus, updated_at := nowIso }
    let msgEvents :=
      if messagingConfigured && currentOrder.phone_number != "" then
        match statusMessage newStatus currentOrder.status updated.order_number with
        | some m => [UpdateEvent.whatsapp currentOrder.phone_number m]
        | none => []
      else []
    (.ok updated, msgEvents ++ [UpdateEvent.broadcast orderId newStatus])

/-- Whether an event is a customer WhatsApp send. -/
def isWhatsapp : UpdateEvent → Bool
  | .whatsapp _ _ => true
  | _ => false

/-- Whether an event is an `order_updated` kitchen-display broadcast. -/
def isBroadcast : UpdateEvent → Bool
  | .broadcast _ _ => true
  | _ => false

/-! Shared lemmas about the creation pipeline. -/

theorem custLookups_append (a b : List StoreOp) :
    custLookups (a ++ b) = custLookups a ++ custLookups b := by
  simp [custLookups]

theorem hasInsert_append (a b : List StoreOp) :
    hasInsert (a ++ b) = (hasInsert a || hasInsert b) := by
  simp [hasInsert, List.any_append]

/-- Inversion of a successful `resolveLine`: the item comes from the fetched
menu rows, the quantity is the coerced client quantity, the line total is
(unit price + customization prices) x quantity, and every resolved
customization detail is a `customization_options` row of the store. -/
theorem resolveLine_ok (store : Store) (mis : List MenuItem) (oi : OrderItemReq)
    (ri : ResolvedItem) (ops : List StoreOp)
    (h : resolveLine store mis oi = (.ok ri, ops)) :
    ∃ m, mis.find? (fun x => x.id == oi.id) = some m ∧
      ri.id = m.id ∧ ri.name = m.name ∧ ri.price = m.price ∧
      ri.quantity = coerceQty oi.quantity ∧
      ri.item_total
        = (ri.price + (ri.customizations.map (fun d => d.price)).sum) * (ri.quantity : ℚ) ∧
      (∀ d ∈ ri.customizations, ∃ o, o ∈ store.customization_options ∧
        d = { id := o.id, name := o.name, price := o.price }) := by
  unfold resolveLine at h
  split at h
  · simp at h
  · next m hm =>
    simp only [Prod.mk.injEq, Except.ok.injEq] at h
    obtain ⟨h1, _⟩ := h
    subst h1
    refine ⟨m, hm, rfl, rfl, rfl, rfl, rfl, ?_⟩
    intro d hd
    by_cases he : oi.customizations.isEmpty
    · simp [he] at hd
    · simp only [he, if_neg, Bool.false_eq_true, if_false, List.mem_map] at hd
      obtain ⟨o, ho, rfl⟩ := hd
      exact ⟨o, (List.mem_filter.mp ho).1, rfl⟩

/-- All lines of a successful `resolveLines` run are successful
`resolveLine` runs, pointwise. -/
theorem resolveLines_ok_forall2 (store : Store) (mis : List MenuItem) :
    ∀ (l : List OrderItemReq) (items : List ResolvedItem) (sub : ℚ) (ops : List StoreOp),
      resolveLines store mis l = (.ok (items, sub), ops) →
      List.Forall₂ (fun oi ri => ∃ lops, resolveLine store mis oi = (.ok ri, lops)) l items
  | [], items, sub, ops, h => by
    simp only [resolveLines, Prod.mk.injEq, Except.ok.injEq] at h
    obtain ⟨⟨h1, _⟩, _⟩ := h
    subst h1
    exact List.Forall₂.nil
  | oi :: rest, items, sub, ops, h => by
    unfold resolveLines at h
    split at h
    · simp at h
    · next ri ops1 hline =>
      split at h
      · simp at h
      · next ris sub2 ops2 hrest =>
        simp only [Prod.mk.injEq, Except.ok.injEq] at h
        obtain ⟨⟨h1, _⟩, _⟩ := h
        subst h1
        exact List.Forall₂.cons ⟨ops1, hline⟩
          (resolveLines_ok_forall2 store mis rest ris sub2 ops2 hrest)

/-- The subtotal of a successful `resolveLines` run is the sum of the line
totals. -/
theorem resolveLines_ok_sum (store : Store) (mis : List MenuItem) :
    ∀ (l : List OrderItemReq) (items : List ResolvedItem) (sub : ℚ) (ops : List StoreOp),
      resolveLines store mis l = (.ok (items, sub), ops) →
      sub = (items.map (fun ri => ri.item_total)).sum
  | [], items, sub, ops, h => by
    simp only [resolveLines, Prod.mk.injEq, Except.ok.injEq] at h
    obtain ⟨⟨h1, h2⟩, _⟩ := h
    subst h1
    simp [h2.symm]
  | oi :: rest, items, sub, ops, h => by
    unfold resolveLines at h
    split at h
    · simp at h
    · next ri ops1 hline =>
      split at h
      · simp at h
      · next ris sub2 ops2 hrest =>
        simp only [Prod.mk.injEq, Except.ok.injEq] at h
        obtain ⟨⟨h1, h2⟩, _⟩ := h
        subst h1
        have := resolveLines_ok_sum store mis rest ris sub2 ops2 hrest
        simp [← h2, this]

/-- The pricing loop issues exactly one customization query per line with a
nonempty customization list, over that line's ids, in request order. -/
theorem resolveLines_ok_custLookups (store : Store) (mis : List MenuItem) :
    ∀ (l : List OrderItemReq) (items : List ResolvedItem) (sub : ℚ) (ops : List StoreOp),
      resolveLines store mis l = (.ok (items, sub), ops) →
      custLookups ops
        = (l.filter (fun oi => !oi.customizations.isEmpty)).map
            (fun oi => oi.customizations.map (fun c => c.id))
  | [], items, sub, ops, h => by
    simp only [resolveLines, Prod.mk.injEq, Except.ok.injEq] at h
    obtain ⟨_, h3⟩ := h
    subst h3
    simp [custLookups]
  | oi :: rest, items, sub, ops, h => by
    unfold resolveLines at h
    split at h
    · simp at h
    · next ri ops1 hline =>
      split at h
      · simp at h
      · next ris sub2 ops2 hrest =>
        simp only [Prod.mk.injEq, Except.ok.injEq] at h
        obtain ⟨_, h3⟩ := h
        subst h3
        have ih := resolveLines_ok_custLookups store mis rest ris sub2 ops2 hrest
        have hops1 : custLookups ops1
            = if oi.customizations.isEmpty then []
              else [oi.customizations.map (fun c => c.id)] := by
          unfold resolveLine at hline
          split at hline
          · simp at hline
          · simp only [Prod.mk.injEq, Except.ok.injEq] at hline
            obtain ⟨_, hops⟩ := hline
            subst hops
            by_cases he : oi.customizations.isEmpty <;> simp [he, custLookups]
        rw [custLookups_append, hops1, ih]
        by_cases he : oi.customizations.isEmpty <;> simp [he]

/-- The pricing loop never writes to the store. -/
theorem resolveLines_ok_noInsert (store : Store) (mis : List MenuItem) :
    ∀ (l : List OrderItemReq) (items : List ResolvedItem) (sub : ℚ) (ops : List StoreOp),
      resolveLines store mis l = (.ok (items, sub), ops) →
      hasInsert ops = false
  | [], items, sub, ops, h => by
    simp only [resolveLines, Prod.mk.injEq, Except.ok.injEq] at h
    obtain ⟨_, h3⟩ := h
    subst h3
    simp [hasInsert]
  | oi :: rest, items, sub, ops, h => by
    unfold resolveLines at h
    split at h
    · simp at h
    · next ri ops1 hline =>
      split at h
      · simp at h
      · next ris sub2 ops2 hrest =>
        simp only [Prod.mk.injEq, Except.ok.injEq] at h
        obtain ⟨_, h3⟩ := h
        subst h3
        have ih := resolveLines_ok_noInsert store mis rest ris sub2 ops2 hrest
        have hops1 : hasInsert ops1 = false := by
          unfold resolveLine at hline
          split at hline
          · simp at hline
          · simp only [Prod.mk.injEq, Except.ok.injEq] at hline
            obtain ⟨_, hops⟩ := hline
            subst hops
            by_cases he : oi.customizations.isEmpty <;> simp [he, hasInsert]
        rw [hasInsert_append, hops1, ih]
        simp

/-- Inversion of a successful order creation. -/
theorem createOrder_ok (store : Store) (restaurantId : String) (req : OrderReq)
    (orderId orderNumber nowIso : String) (resp : OrderResponse) (ops : List StoreOp)
    (h : createOrder store restaurantId req orderId orderNumber nowIso = (.ok resp, ops)) :
    ∃ restaurant items sub lineOps,
      store.restaurants.find? (fun r => r.id == restaurantId) = some restaurant ∧
      resolveLines store (menuItemsFor store restaurantId (requestedIds req)) (req.items.getD [])
        = (.ok (items, sub), lineOps) ∧
      resp = mkOrderResponse restaurant orderId orderNumber items sub ∧
      ops = [.selectRestaurant restaurantId, .selectMenuItems restaurantId (requestedIds req)]
        ++ lineOps
        ++ [.insertOrder
              (mkOrderRow restaurant restaurantId req orderId orderNumber nowIso items sub)] := by
  unfold createOrder at h
  split at h
  · simp at h
  · split at h
    · simp at h
    · next restaurant hrest =>
      split at h
      · simp at h
      · split at h
        · simp at h
        · next items sub lineOps hres =>
          simp only [Prod.mk.injEq, CreateResult.ok.injEq] at h
          obtain ⟨h1, h2⟩ := h
          exact ⟨restaurant, items, sub, lineOps, hrest, hres, h1.symm, h2.symm⟩

/-! Claim theorems. -/

/-- Claim C4: a creation request with a missing or empty items list, or a
missing customer name or phone number, is answered 400 and the handler
performs no store read or write at all — the trace is empty. -/
theorem C4_validation_short_circuits (store : Store) (restaurantId : String) (req : OrderReq)
    (orderId orderNumber nowIso : String)
    (h : (!truthy req.customer_name || !truthy req.phone_number
        || itemsMissingOrEmpty req.items) = true) :
    statusCode (createOrder store restaurantId req orderId orderNumber nowIso).1 = 400 ∧
    (createOrder store restaurantId req orderId orderNumber nowIso).2 = [] := by
  simp [createOrder, h, statusCode]

/-- A concrete run of C4: request with `items: []`. -/
theorem C4_validation_short_circuits_witness :
    statusCode (createOrder ⟨[], [], [], [], []⟩ "r1"
        ⟨some "Ana", some "123", none, some [], none⟩ "oid" "UD1" "t").1 = 400 ∧
    (createOrder ⟨[], [], [], [], []⟩ "r1"
        ⟨some "Ana", some "123", none, some [], none⟩ "oid" "UD1" "t").2 = [] :=
  C4_validation_short_circuits ⟨[], [], [], [], []⟩ "r1"
    ⟨some "Ana", some "123", none, some [], none⟩ "oid" "UD1" "t" (by decide)

/-- Claim C3: if any requested item id matches a stored menu item of the
restaurant whose `is_available` is false, the whole creation fails 400
carrying the unavailable item names, and no order row is inserted. -/
theorem C3_unavailable_rejects_all (store : Store) (restaurantId : String) (req : OrderReq)
    (orderId orderNumber nowIso : String) (restaurant : Restaurant) (m : MenuItem)
    (hv : (!truthy req.customer_name || !truthy req.phone_number
        || itemsMissingOrEmpty req.items) = false)
    (hrest : store.restaurants.find? (fun r => r.id == restaurantId) = some restaurant)
    (hm : m ∈ store.menu_items) (hmr : m.restaurant_id = restaurantId)
    (hid : m.id ∈ requestedIds req) (hun : m.is_available = false) :
    ∃ names,
      (createOrder store restaurantId req orderId orderNumber nowIso).1
        = .badRequest "Some items are currently unavailable" (some names) ∧
      m.name ∈ names ∧
      statusCode (createOrder store restaurantId req orderId orderNumber nowIso).1 = 400 ∧
      hasInsert (createOrder store restaurantId req orderId orderNumber nowIso).2 = false := by
  have hmem : m ∈ unavailableOf (menuItemsFor store restaurantId (requestedIds req)) := by
    simp [unavailableOf, menuItemsFor, List.mem_filter, hm, hmr, hid, hun]
  have hne : (unavailableOf (menuItemsFor store restaurantId (requestedIds req))).isEmpty
      = false := by
    cases hl : unavailableOf (menuItemsFor store restaurantId (requestedIds req)) with
    | nil => rw [hl] at hmem; simp at hmem
    | cons a t => simp
  refine ⟨(unavailableOf (menuItemsFor store restaurantId (requestedIds req))).map
    (fun x => x.name), ?_, ?_, ?_, ?_⟩ <;>
    simp [createOrder, hv, hrest, hne, statusCode, hasInsert, List.mem_map]
  exact ⟨m, hmem, rfl⟩

/-- Every resolved item of a successful run comes from a successful
`resolveLine` on some request line. -/
theorem resolveLines_ok_items (store : Store) (mis : List MenuItem) :
    ∀ (l : List OrderItemReq) (items : List ResolvedItem) (sub : ℚ) (ops : List StoreOp),
      resolveLines store mis l = (.ok (items, sub), ops) →
      ∀ ri ∈ items, ∃ oi, oi ∈ l ∧ ∃ lops, resolveLine store mis oi = (.ok ri, lops)
  | [], items, sub, ops, h => by
    simp only [resolveLines, Prod.mk.injEq, Except.ok.injEq] at h
    obtain ⟨⟨h1, _⟩, _⟩ := h
    subst h1
    simp
  | oi :: rest, items, sub, ops, h => by
    unfold resolveLines at h
    split at h
    · simp at h
    · next ri ops1 hline =>
      split at h
      · simp at h
      · next ris sub2 ops2 hrest =>
        simp only [Prod.mk.injEq, Except.ok.injEq] at h
        obtain ⟨⟨h1, _⟩, _⟩ := h
        subst h1
        intro x hx
        rcases List.mem_cons.mp hx with hx | hx
        · exact ⟨oi, List.mem_cons_self oi rest, ops1, hx ▸ hline⟩
        · obtain ⟨oj, hoj, lops, hj⟩ :=
            resolveLines_ok_items store mis rest ris sub2 ops2 hrest x hx
          exact ⟨oj, List.mem_cons_of_mem oi hoj, lops, hj⟩

theorem insertedRows_append (a b : List StoreOp) :
    insertedRows (a ++ b) = insertedRows a ++ insertedRows b := by
  simp [insertedRows]

/-- A trace without inserts contributes no inserted rows. -/
theorem insertedRows_of_noInsert :
    ∀ ops : List StoreOp, hasInsert ops = false → insertedRows ops = []
  | [], _ => rfl
  | op :: ops, h => by
    simp only [hasInsert, List.any_cons, Bool.or_eq_false_iff] at h
    obtain ⟨h1, h2⟩ := h
    have ih := insertedRows_of_noInsert ops (by simpa [hasInsert] using h2)
    cases op <;> simp [insertedRows] at h1 ⊢ <;> simpa [insertedRows] using ih

/-- Concrete data for the C3 witness: a restaurant with one unavailable
item. -/
def c3Item : MenuItem :=
  { id := "i2", restaurant_id := "r1", name := "Soup", price := 4, is_available := false }

def c3Store : Store :=
  { restaurants := [{ id := "r1", name := "Demo", tax_rate := none }],
    menu_items := [c3Item], cust_categories := [], customization_options := [], orders := [] }

def c3Req : OrderReq :=
  { customer_name := some "Ana", phone_number := some "123", order_type := none,
    items := some [{ id := "i2", quantity := .num 1, client_name := none, client_price := none,
                     customizations := [], special_notes := none }],
    notes := none }

/-- A concrete run of C3: ordering the unavailable soup is answered 400 with
its name listed and nothing inserted. -/
theorem C3_unavailable_rejects_all_witness :
    ∃ names,
      (createOrder c3Store "r1" c3Req "oid" "UD1" "t").1
        = .badRequest "Some items are currently unavailable" (some names) ∧
      c3Item.name ∈ names ∧
      statusCode (createOrder c3Store "r1" c3Req "oid" "UD1" "t").1 = 400 ∧
      hasInsert (createOrder c3Store "r1" c3Req "oid" "UD1" "t").2 = false :=
  C3_unavailable_rejects_all c3Store "r1" c3Req "oid" "UD1" "t"
    { id := "r1", name := "Demo", tax_rate := none } c3Item
    (by decide) rfl (by simp [c3Store]) rfl (by simp [requestedIds, c3Req, c3Item]) rfl

/-- Concrete data for the C2 scenario: tax rate 0.08, a 10.00 item with a
1.50 customization, quantity 2. -/
def c2Store : Store :=
  { restaurants := [{ id := "r1", name := "Demo", tax_rate := some (2 / 25) }],
    menu_items :=
      [{ id := "i1", restaurant_id := "r1", name := "Burger", price := 10,
         is_available := true }],
    cust_categories := [{ id := "cat1", menu_item_id := "i1" }],
    customization_options :=
      [{ id := "c1", category_id := "cat1", name := "Cheese", price := 3 / 2,
         is_available := true }],
    orders := [] }

def c2Req : OrderReq :=
  { customer_name := some "Ana", phone_number := some "123", order_type := none,
    items := some [{ id := "i1", quantity := .num 2, client_name := none, client_price := none,
                     customizations := [{ id := "c1", client_name := none, client_price := none }],
                     special_notes := none }],
    notes := none }

def c2Item : ResolvedItem :=
  { id := "i1", name := "Burger", price := 10, quantity := 2,
    customizations := [{ id := "c1", name := "Cheese", price := 3 / 2 }],
    special_notes := "", item_total := 23 }

def c2Resp : OrderResponse :=
  { id := "oid", order_number := "UD1", items := [c2Item],
    subtotal := "23.00", tax := "1.84", total := "24.84", tax_rate := "8.0%" }

def c2Row : OrderRow :=
  { id := "oid", restaurant_id := "r1", order_number := "UD1", customer_name := "Ana",
    phone_number := "123", order_source := "walk-in", order_items := [c2Item],
    total_amount := "24.84", user_input := "", status := "new",
    created_at := "t", updated_at := "t" }

def c2Ops : List StoreOp :=
  [.selectRestaurant "r1", .selectMenuItems "r1" ["i1"], .selectCustomizations ["c1"],
   .insertOrder c2Row]

/-- Full evaluation of the creation handler on the C2 scenario. -/
theorem c2_eval : createOrder c2Store "r1" c2Req "oid" "UD1" "t" = (.ok c2Resp, c2Ops) := by
  norm_num [createOrder, truthy, itemsMissingOrEmpty, requestedIds, menuItemsFor, unavailableOf,
    resolveLines, resolveLine, lookupCustomizations, coerceQty, jsParseInt, mkOrderResponse,
    mkOrderRow, orderSourceOf, formatFixed, jsRoundAt, Rat.floor_def', padZeros,
    c2Store, c2Req, c2Resp, c2Ops, c2Item, c2Row, List.find?, List.filter]
  rfl

/-- Claim C2: on every successful creation the subtotal is the sum of the
line totals, each line total is (stored unit price + customization prices)
x quantity, tax is subtotal x tax rate computed once over the full
subtotal, total is subtotal + tax, and the returned strings and the single
persisted amount are those exact values rounded once by `toFixed(2)`; and
on the concrete 0.08 / 10.00 + 1.50 / quantity-2 scenario the response
carries subtotal 23.00, tax 1.84, total 24.84. -/
theorem C2_totals :
    (∀ (store : Store) (restaurantId : String) (req : OrderReq)
        (orderId orderNumber nowIso : String) (resp : OrderResponse) (ops : List StoreOp),
      createOrder store restaurantId req orderId orderNumber nowIso = (.ok resp, ops) →
      ∃ restaurant sub,
        store.restaurants.find? (fun r => r.id == restaurantId) = some restaurant ∧
        sub = (resp.items.map (fun ri => ri.item_total)).sum ∧
        (∀ ri ∈ resp.items,
          ri.item_total
            = (ri.price + (ri.customizations.map (fun d => d.price)).sum) * (ri.quantity : ℚ)) ∧
        resp.subtotal = formatFixed 2 sub ∧
        resp.tax = formatFixed 2 (sub * restaurant.tax_rate.getD 0) ∧
        resp.total = formatFixed 2 (sub + sub * restaurant.tax_rate.getD 0) ∧
        (insertedRows ops).map (fun row => row.total_amount)
          = [formatFixed 2 (sub + sub * restaurant.tax_rate.getD 0)]) ∧
    respSubtotal (createOrder c2Store "r1" c2Req "oid" "UD1" "t").1 = some "23.00" ∧
    respTax (createOrder c2Store "r1" c2Req "oid" "UD1" "t").1 = some "1.84" ∧
    respTotal (createOrder c2Store "r1" c2Req "oid" "UD1" "t").1 = some "24.84" := by
  constructor
  · intro store restaurantId req orderId orderNumber nowIso resp ops h
    obtain ⟨restaurant, items, sub, lineOps, hrest, hres, hresp, hops⟩ :=
      createOrder_ok store restaurantId req orderId orderNumber nowIso resp ops h
    refine ⟨restaurant, sub, hrest, ?_, ?_, ?_, ?_, ?_, ?_⟩
    · rw [hresp]
      exact resolveLines_ok_sum store _ _ items sub lineOps hres
    · intro ri hri
      rw [hresp] at hri
      simp only [mkOrderResponse] at hri
      obtain ⟨oi, _, lops, hl⟩ :=
        resolveLines_ok_items store _ _ items sub lineOps hres ri hri
      obtain ⟨m, _, _, _, _, _, htot, _⟩ := resolveLine_ok store _ oi ri lops hl
      exact htot
    · rw [hresp]; rfl
    · rw [hresp]; rfl
    · rw [hresp]; rfl
    · rw [hops]
      have hno := resolveLines_ok_noInsert store _ _ items sub lineOps hres
      rw [insertedRows_append, insertedRows_append, insertedRows_of_noInsert lineOps hno]
      simp [insertedRows, mkOrderRow]
  · rw [c2_eval]
    exact ⟨rfl, rfl, rfl⟩

/-- A concrete application of the universal part of C2, at the scenario
input. -/
theorem C2_totals_witness :
    ∃ restaurant sub,
      c2Store.restaurants.find? (fun r => r.id == "r1") = some restaurant ∧
      sub = (c2Resp.items.map (fun ri => ri.item_total)).sum ∧
      (∀ ri ∈ c2Resp.items,
        ri.item_total
          = (ri.price + (ri.customizations.map (fun d => d.price)).sum) * (ri.quantity : ℚ)) ∧
      c2Resp.subtotal = formatFixed 2 sub ∧
      c2Resp.tax = formatFixed 2 (sub * restaurant.tax_rate.getD 0) ∧
      c2Resp.total = formatFixed 2 (sub + sub * restaurant.tax_rate.getD 0) ∧
      (insertedRows c2Ops).map (fun row => row.total_amount)
        = [formatFixed 2 (sub + sub * restaurant.tax_rate.getD 0)] :=
  C2_totals.1 c2Store "r1" c2Req "oid" "UD1" "t" c2Resp c2Ops c2_eval

/-- If some request line references an id with no row among the fetched menu
items, the pricing loop aborts with an error (the per-line throw). -/
theorem resolveLines_missing_err (store : Store) (mis : List MenuItem) :
    ∀ l : List OrderItemReq,
      (∃ oi ∈ l, mis.find? (fun x => x.id == oi.id) = none) →
      ∃ e lops, resolveLines store mis l = (.error e, lops)
  | [], h => by simp at h
  | a :: rest, h => by
    obtain ⟨oi, hmem, hnone⟩ := h
    cases hla : resolveLine store mis a with
    | mk fst ops =>
      cases fst with
      | error e =>
        refine ⟨e, ops, ?_⟩
        unfold resolveLines
        rw [hla]
      | ok ri =>
        have hamem : oi ∈ rest := by
          rcases List.mem_cons.mp hmem with rfl | hmem2
          · exfalso
            unfold resolveLine at hla
            rw [hnone] at hla
            simp at hla
          · exact hmem2
        obtain ⟨e, lops, hrec⟩ :=
          resolveLines_missing_err store mis rest ⟨oi, hamem, hnone⟩
        refine ⟨e, ops ++ lops, ?_⟩
        unfold resolveLines
        rw [hla, hrec]

/-- Claim C6 as amended: a creation request referencing an item id with no
matching `menu_items` row for the restaurant, and a status update for a
nonexistent order id, both fail — but with HTTP 500 (the creation handler's
generic `Item ... not found` throw lands in the catch-all, and the status
handler returns the fetch error as 500), not 404. -/
theorem C6_not_found_maps_to_500 :
    (∀ (store : Store) (restaurantId : String) (req : OrderReq)
        (orderId orderNumber nowIso : String) (oi : OrderItemReq),
      (!truthy req.customer_name || !truthy req.phone_number
        || itemsMissingOrEmpty req.items) = false →
      (store.restaurants.find? (fun r => r.id == restaurantId)).isSome = true →
      (unavailableOf (menuItemsFor store restaurantId (requestedIds req))).isEmpty = true →
      oi ∈ req.items.getD [] →
      (menuItemsFor store restaurantId (requestedIds req)).find? (fun x => x.id == oi.id)
        = none →
      statusCode (createOrder store restaurantId req orderId orderNumber nowIso).1 = 500) ∧
    (∀ (store : Store) (cfg : Bool) (orderId newStatus nowIso : String),
      store.orders.find? (fun o => o.id == orderId) = none →
      updStatusCode (updateOrderStatus store cfg orderId newStatus nowIso).1 = 500) := by
  constructor
  · intro store restaurantId req orderId orderNumber nowIso oi hv hsome hav hmem hnone
    obtain ⟨restaurant, hrest⟩ := Option.isSome_iff_exists.mp hsome
    obtain ⟨e, lops, herr⟩ :=
      resolveLines_missing_err store (menuItemsFor store restaurantId (requestedIds req))
        (req.items.getD []) ⟨oi, hmem, hnone⟩
    simp [createOrder, hv, hrest, hav, herr, statusCode]
  · intro store cfg orderId newStatus nowIso hnone
    simp [updateOrderStatus, hnone, updStatusCode]

/-- Concrete store and request for the C6 counterexample: the restaurant
exists but the requested item id matches no `menu_items` row, and the order
id `nope` matches no order. -/
def c6Store : Store :=
  { restaurants := [{ id := "r1", name := "Demo", tax_rate := none }],
    menu_items := [], cust_categories := [], customization_options := [], orders := [] }

def c6Req : OrderReq :=
  { customer_name := some "Ana", phone_number := some "123", order_type := none,
    items := some [{ id := "missing", quantity := .num 1, client_name := none,
                     client_price := none, customizations := [], special_notes := none }],
    notes := none }

/-- Counterexample to claim C6 as stated: both not-found operations answer
HTTP 500, not 404. -/
theorem C6_counterexample :
    statusCode (createOrder c6Store "r1" c6Req "oid" "UD1" "t").1 = 500 ∧
    updStatusCode (updateOrderStatus c6Store true "nope" "preparing" "t").1 = 500 ∧
    ¬ statusCode (createOrder c6Store "r1" c6Req "oid" "UD1" "t").1 = 404 ∧
    ¬ updStatusCode (updateOrderStatus c6Store true "nope" "preparing" "t").1 = 404 := by
  refine ⟨?_, ?_, ?_, ?_⟩ <;> decide

/-- Concrete application of both parts of the amended C6. -/
theorem C6_not_found_maps_to_500_witness :
    statusCode (createOrder c6Store "r1" c6Req "oid" "UD1" "t").1 = 500 ∧
    updStatusCode (updateOrderStatus c6Store true "nope" "preparing" "t").1 = 500 :=
  ⟨C6_not_found_maps_to_500.1 c6Store "r1" c6Req "oid" "UD1" "t"
      { id := "missing", quantity := .num 1, client_name := none, client_price := none,
        customizations := [], special_notes := none }
      (by decide) (by decide) (by decide) (by decide) (by decide),
   C6_not_found_maps_to_500.2 c6Store true "nope" "preparing" "t" (by decide)⟩

/-- The customer-message gate of the status handler agrees, as a boolean
function, with the three recognized transitions. -/
theorem statusMessage_isSome (n o num : String) :
    (statusMessage n o num).isSome = recognizedTransition o n := by
  unfold statusMessage recognizedTransition
  cases n == "preparing" <;> cases n == "ready" <;> cases n == "completed" <;>
    cases o == "new" <;> cases o == "preparing" <;> cases o == "ready" <;> simp

/-- Claim C5: with messaging configured and a stored phone number, a status
update sends exactly one templated customer message when (stored old status,
requested new status) is one of new→preparing, preparing→ready,
ready→completed, and zero messages on every other pair; and for any
messaging configuration it emits exactly one `order_updated` broadcast
carrying the new status. -/
theorem C5_status_transition_messages (store : Store) (oid newStatus nowIso : String)
    (ord : OrderRow)
    (h : store.orders.find? (fun o => o.id == oid) = some ord)
    (hp : ord.phone_number ≠ "") :
    (((updateOrderStatus store true oid newStatus nowIso).2.filter isWhatsapp).length
      = if recognizedTransition ord.status newStatus then 1 else 0) ∧
    (∀ cfg, (updateOrderStatus store cfg oid newStatus nowIso).2.filter isBroadcast
      = [UpdateEvent.broadcast oid newStatus]) := by
  have hb : (ord.phone_number != "") = true := bne_iff_ne.mpr hp
  constructor
  · unfold updateOrderStatus
    rw [h]
    have hrec := statusMessage_isSome newStatus ord.status ord.order_number
    cases hm : statusMessage newStatus ord.status ord.order_number with
    | none =>
      rw [hm] at hrec
      simp [hb, hm, ← hrec, isWhatsapp, isBroadcast]
    | some m =>
      rw [hm] at hrec
      simp [hb, hm, ← hrec, isWhatsapp, isBroadcast]
  · intro cfg
    unfold updateOrderStatus
    rw [h]
    cases hc : cfg && ord.phone_number != "" with
    | false => simp [hc, isBroadcast]
    | true =>
      cases hm : statusMessage newStatus ord.status ord.order_number with
      | none => simp [hc, hm, isBroadcast]
      | some m => simp [hc, hm, isWhatsapp, isBroadcast]

/-- Concrete order for the C5 witness. -/
def c5Order : OrderRow :=
  { id := "o1", restaurant_id := "r1", order_number := "UD42", customer_name := "Ana",
    phone_number := "123", order_source := "walk-in", order_items := [],
    total_amount := "0.00", user_input := "", status := "new",
    created_at := "t", updated_at := "t" }

def c5Store : Store :=
  { restaurants := [], menu_items := [], cust_categories := [],
    customization_options := [], orders := [c5Order] }

/-- Concrete application of C5 at an existing order with a phone number. -/
theorem C5_status_transition_messages_witness :
    (((updateOrderStatus c5Store true "o1" "preparing" "t").2.filter isWhatsapp).length
      = if recognizedTransition c5Order.status "preparing" then 1 else 0) ∧
    (∀ cfg, (updateOrderStatus c5Store cfg "o1" "preparing" "t").2.filter isBroadcast
      = [UpdateEvent.broadcast "o1" "preparing"]) :=
  C5_status_transition_messages c5Store "o1" "preparing" "t" c5Order rfl (by decide)

/-- Claim C8 as amended: customization ids are resolved per line — every
line with a nonempty customization list issues exactly one
`customization_options` query over that line's ids, in request order, and
lines without customizations issue none; there is no single combined query
across lines. -/
theorem C8_per_line_lookup (store : Store) (restaurantId : String) (req : OrderReq)
    (orderId orderNumber nowIso : String) (resp : OrderResponse) (ops : List StoreOp)
    (h : createOrder store restaurantId req orderId orderNumber nowIso = (.ok resp, ops)) :
    custLookups ops
      = ((req.items.getD []).filter (fun oi => !oi.customizations.isEmpty)).map
          (fun oi => oi.customizations.map (fun c => c.id)) := by
  obtain ⟨restaurant, items, sub, lineOps, hrest, hres, hresp, hops⟩ :=
    createOrder_ok store restaurantId req orderId orderNumber nowIso resp ops h
  rw [hops, custLookups_append, custLookups_append]
  rw [resolveLines_ok_custLookups store _ _ items sub lineOps hres]
  simp [custLookups]

/-- Concrete application of the amended C8 at the C2 scenario input. -/
theorem C8_per_line_lookup_witness :
    custLookups c2Ops
      = ((c2Req.items.getD []).filter (fun oi => !oi.customizations.isEmpty)).map
          (fun oi => oi.customizations.map (fun c => c.id)) :=
  C8_per_line_lookup c2Store "r1" c2Req "oid" "UD1" "t" c2Resp c2Ops c2_eval

/-- Concrete store and request for the C8 counterexample: two lines, each
with one customization id. -/
def c8Store : Store :=
  { restaurants := [{ id := "r1", name := "Demo", tax_rate := none }],
    menu_items :=
      [{ id := "i1", restaurant_id := "r1", name := "Burger", price := 10,
         is_available := true },
       { id := "i2", restaurant_id := "r1", name := "Fries", price := 5,
         is_available := true }],
    cust_categories := [],
    customization_options :=
      [{ id := "c1", category_id := "cat1", name := "Cheese", price := 1,
         is_available := true },
       { id := "c2", category_id := "cat1", name := "Salt", price := 0,
         is_available := true }],
    orders := [] }

def c8Req : OrderReq :=
  { customer_name := some "Ana", phone_number := some "123", order_type := none,
    items := some
      [{ id := "i1", quantity := .num 1, client_name := none, client_price := none,
         customizations := [{ id := "c1", client_name := none, client_price := none }],
         special_notes := none },
       { id := "i2", quantity := .num 1, client_name := none, client_price := none,
         customizations := [{ id := "c2", client_name := none, client_price := none }],
         special_notes := none }],
    notes := none }

/-- Counterexample to claim C8 as stated: a two-line order issues two
customization queries (one per line), not one single batched query over the
combined id list. -/
theorem C8_counterexample :
    custLookups (createOrder c8Store "r1" c8Req "oid" "UD1" "t").2 = [["c1"], ["c2"]] ∧
    (custLookups (createOrder c8Store "r1" c8Req "oid" "UD1" "t").2).length = 2 ∧
    ¬ (custLookups (createOrder c8Store "r1" c8Req "oid" "UD1" "t").2).length ≤ 1 := by
  refine ⟨?_, ?_, ?_⟩ <;> decide

/-- Whether an `Except` value is a success. -/
def isOkE {ε α : Type _} : Except ε α → Bool
  | .ok _ => true
  | .error _ => false

/-- Pointwise relation on the optional items lists of two requests. -/
def itemsRel (R : OrderItemReq → OrderItemReq → Prop) :
    Option (List OrderItemReq) → Option (List OrderItemReq) → Prop
  | none, none => True
  | some l1, some l2 => List.Forall₂ R l1 l2
  | _, _ => False

/-- Two request lines equal in everything except the quantity value. -/
def sameButQty (a b : OrderItemReq) : Prop :=
  a.id = b.id ∧ a.client_name = b.client_name ∧ a.client_price = b.client_price ∧
  a.customizations = b.customizations ∧ a.special_notes = b.special_notes

/-- Two creation requests equal in everything except per-line quantities. -/
def sameModuloQuantity (r1 r2 : OrderReq) : Prop :=
  r1.customer_name = r2.customer_name ∧ r1.phone_number = r2.phone_number ∧
  r1.order_type = r2.order_type ∧ r1.notes = r2.notes ∧
  itemsRel sameButQty r1.items r2.items

/-- Mapping related lists through componentwise-agreeing functions gives
equal lists. -/
theorem forall2_map_eq {α β γ : Type _} (R : α → β → Prop) (f : α → γ) (g : β → γ)
    (hfg : ∀ a b, R a b → f a = g b) :
    ∀ {l1 : List α} {l2 : List β}, List.Forall₂ R l1 l2 → l1.map f = l2.map g
  | [], [], _ => rfl
  | a :: t1, b :: t2, h => by
    obtain ⟨hab, ht⟩ := List.forall₂_cons.mp h
    simp [hfg a b hab, forall2_map_eq R f g hfg ht]

/-- A line's success or failure does not depend on its quantity value. -/
theorem resolveLine_sameButQty (store : Store) (mis : List MenuItem)
    {a b : OrderItemReq} (h : sameButQty a b) :
    isOkE (resolveLine store mis a).1 = isOkE (resolveLine store mis b).1 := by
  obtain ⟨h1, _, _, _, _⟩ := h
  unfold resolveLine
  rw [h1]
  cases mis.find? (fun x => x.id == b.id) <;> simp [isOkE]

/-- The pricing loop's success or failure does not depend on the lines'
quantity values. -/
theorem resolveLines_sameButQty (store : Store) (mis : List MenuItem) :
    ∀ (l1 l2 : List OrderItemReq), List.Forall₂ sameButQty l1 l2 →
      isOkE (resolveLines store mis l1).1 = isOkE (resolveLines store mis l2).1
  | [], [], _ => rfl
  | [], _ :: _, h => by cases h
  | _ :: _, [], h => by cases h
  | a :: t1, b :: t2, h => by
    obtain ⟨hab, ht⟩ := List.forall₂_cons.mp h
    have hline := resolveLine_sameButQty store mis hab
    have htail := resolveLines_sameButQty store mis t1 t2 ht
    unfold resolveLines
    cases ha : resolveLine store mis a with
    | mk fa opsa =>
      cases hb : resolveLine store mis b with
      | mk fb opsb =>
        rw [ha, hb] at hline
        cases fa with
        | error ea =>
          cases fb with
          | error eb => simp [isOkE]
          | ok rb => simp [isOkE] at hline
        | ok ra =>
          cases fb with
          | error eb => simp [isOkE] at hline
          | ok rb =>
            cases hta : resolveLines store mis t1 with
            | mk fta opsta =>
              cases htb : resolveLines store mis t2 with
              | mk ftb opstb =>
                rw [hta, htb] at htail
                cases fta with
                | error ea2 =>
                  cases ftb with
                  | error eb2 => simp [isOkE]
                  | ok vb => simp [isOkE] at htail
                | ok va =>
                  cases ftb with
                  | error eb2 => simp [isOkE] at htail
                  | ok vb =>
                    cases va
                    cases vb
                    simp [isOkE]

/-- The HTTP status of order creation does not depend on the quantity
values of the request lines. -/
theorem createOrder_status_sameModuloQuantity (store : Store) (restaurantId : String)
    {r1 r2 : OrderReq} (h : sameModuloQuantity r1 r2) (orderId orderNumber nowIso : String) :
    statusCode (createOrder store restaurantId r1 orderId orderNumber nowIso).1
      = statusCode (createOrder store restaurantId r2 orderId orderNumber nowIso).1 := by
  obtain ⟨hname, hphone, htype, hnotes, hitems⟩ := h
  have hgetD : List.Forall₂ sameButQty (r1.items.getD []) (r2.items.getD []) := by
    cases hi1 : r1.items with
    | none =>
      cases hi2 : r2.items with
      | none => exact List.Forall₂.nil
      | some l2 => rw [hi1, hi2] at hitems; cases hitems
    | some l1 =>
      cases hi2 : r2.items with
      | none => rw [hi1, hi2] at hitems; cases hitems
      | some l2 => rw [hi1, hi2] at hitems; simpa [itemsRel] using hitems
  have hMOE : itemsMissingOrEmpty r1.items = itemsMissingOrEmpty r2.items := by
    cases hi1 : r1.items with
    | none =>
      cases hi2 : r2.items with
      | none => rfl
      | some l2 => rw [hi1, hi2] at hitems; cases hitems
    | some l1 =>
      cases hi2 : r2.items with
      | none => rw [hi1, hi2] at hitems; cases hitems
      | some l2 =>
        rw [hi1, hi2] at hitems
        have hlen : l1.length = l2.length := List.Forall₂.length_eq hitems
        cases l1 <;> cases l2 <;> simp_all [itemsMissingOrEmpty]
  have hreq : requestedIds r1 = requestedIds r2 := by
    unfold requestedIds
    exact forall2_map_eq sameButQty _ _ (fun a b hab => hab.1) hgetD
  have hkind :=
    resolveLines_sameButQty store (menuItemsFor store restaurantId (requestedIds r2))
      (r1.items.getD []) (r2.items.getD []) hgetD
  unfold createOrder
  rw [hname, hphone, hMOE, hreq]
  by_cases hval : (!truthy r2.customer_name || !truthy r2.phone_number
      || itemsMissingOrEmpty r2.items) = true
  · simp [hval]
  · simp only [Bool.not_eq_true] at hval
    simp only [hval, Bool.false_eq_true, if_false]
    cases hfind : store.restaurants.find? (fun r => r.id == restaurantId) with
    | none => rfl
    | some restaurant =>
      by_cases hav : (unavailableOf (menuItemsFor store restaurantId (requestedIds r2))).isEmpty
      · simp only [hav, Bool.not_true, Bool.false_eq_true, if_false]
        cases ha : resolveLines store (menuItemsFor store restaurantId (requestedIds r2))
            (r1.items.getD []) with
        | mk fa opsa =>
          cases hb : resolveLines store (menuItemsFor store restaurantId (requestedIds r2))
              (r2.items.getD []) with
          | mk fb opsb =>
            rw [ha, hb] at hkind
            cases fa with
            | error ea =>
              cases fb with
              | error eb => simp [statusCode]
              | ok vb => simp [isOkE] at hkind
            | ok va =>
              cases fb with
              | error eb => simp [isOkE] at hkind
              | ok vb =>
                cases va
                cases vb
                simp [statusCode]
      · simp only [Bool.not_eq_true] at hav
        simp [hav]

/-- Claim C7 as amended: the quantity used for pricing is the integer
`parseInt(quantity) || 1` — it defaults to 1 when the value is absent,
fails to parse, or parses to 0, and otherwise uses the parsed integer
as-is, including negative values (so it is not guaranteed positive); the
resolved lines of a successful creation carry exactly these coerced
quantities; and a malformed quantity never changes the HTTP status, so it
never causes a rejection. -/
theorem C7_quantity_coercion :
    (∀ v, jsParseInt v = none → coerceQty v = 1) ∧
    (∀ v, jsParseInt v = some 0 → coerceQty v = 1) ∧
    (∀ v n, jsParseInt v = some n → n ≠ 0 → coerceQty v = n) ∧
    (∀ (store : Store) (restaurantId : String) (req : OrderReq)
        (orderId orderNumber nowIso : String) (resp : OrderResponse) (ops : List StoreOp),
      createOrder store restaurantId req orderId orderNumber nowIso = (.ok resp, ops) →
      List.Forall₂ (fun oi ri => ri.quantity = coerceQty oi.quantity)
        (req.items.getD []) resp.items) ∧
    (∀ (store : Store) (restaurantId : String) (r1 r2 : OrderReq)
        (orderId orderNumber nowIso : String), sameModuloQuantity r1 r2 →
      statusCode (createOrder store restaurantId r1 orderId orderNumber nowIso).1
        = statusCode (createOrder store restaurantId r2 orderId orderNumber nowIso).1) := by
  refine ⟨?_, ?_, ?_, ?_, ?_⟩
  · intro v hv; simp [coerceQty, hv]
  · intro v hv; simp [coerceQty, hv]
  · intro v n hv hn; simp [coerceQty, hv, hn]
  · intro store restaurantId req orderId orderNumber nowIso resp ops h
    obtain ⟨restaurant, items, sub, lineOps, hrest, hres, hresp, hops⟩ :=
      createOrder_ok store restaurantId req orderId orderNumber nowIso resp ops h
    have h2 := resolveLines_ok_forall2 store _ _ items sub lineOps hres
    rw [hresp]
    refine List.Forall₂.imp ?_ h2
    intro oi ri ⟨lops, hl⟩
    obtain ⟨m, _, _, _, _, hq, _, _⟩ := resolveLine_ok store _ oi ri lops hl
    exact hq
  · intro store restaurantId r1 r2 orderId orderNumber nowIso h
    exact createOrder_status_sameModuloQuantity store restaurantId h orderId orderNumber nowIso

/-- Concrete data for C7: a valid order whose line carries quantity -2. -/
def c7Store : Store :=
  { restaurants := [{ id := "r1", name := "Demo", tax_rate := none }],
    menu_items :=
      [{ id := "i1", restaurant_id := "r1", name := "Burger", price := 10,
         is_available := true }],
    cust_categories := [], customization_options := [], orders := [] }

def c7Req : OrderReq :=
  { customer_name := some "Ana", phone_number := some "123", order_type := none,
    items := some [{ id := "i1", quantity := .num (-2), client_name := none,
                     client_price := none, customizations := [], special_notes := none }],
    notes := none }

/-- Counterexample to claim C7 as stated: a client-supplied quantity of -2
is accepted (HTTP 200) and used as-is for pricing — the quantity used is
not a positive integer. -/
theorem C7_counterexample :
    resolvedQuantities (createOrder c7Store "r1" c7Req "oid" "UD1" "t").1 = [-2] ∧
    statusCode (createOrder c7Store "r1" c7Req "oid" "UD1" "t").1 = 200 ∧
    ¬ (0 : ℤ) < -2 := by
  refine ⟨?_, ?_, ?_⟩ <;> decide

/-- Requests for the C7 witness differing only in a quantity value. -/
def c7ReqA : OrderReq :=
  { customer_name := some "Ana", phone_number := some "123", order_type := none,
    items := some [{ id := "missing", quantity := .num 5, client_name := none,
                     client_price := none, customizations := [], special_notes := none }],
    notes := none }

def c7ReqB : OrderReq :=
  { customer_name := some "Ana", phone_number := some "123", order_type := none,
    items := some [{ id := "missing", quantity := .str "xyz", client_name := none,
                     client_price := none, customizations := [], special_notes := none }],
    notes := none }

/-- Concrete applications of the amended C7. -/
theorem C7_quantity_coercion_witness :
    coerceQty (QtyVal.str "xyz") = 1 ∧ coerceQty (QtyVal.num (-2)) = -2 ∧
    statusCode (createOrder c6Store "r1" c7ReqA "oid" "UD1" "t").1
      = statusCode (createOrder c6Store "r1" c7ReqB "oid" "UD1" "t").1 :=
  ⟨C7_quantity_coercion.1 (QtyVal.str "xyz") (by decide),
   C7_quantity_coercion.2.2.1 (QtyVal.num (-2)) (-2) (by decide) (by decide),
   C7_quantity_coercion.2.2.2.2 c6Store "r1" c7ReqA c7ReqB "oid" "UD1" "t"
     ⟨rfl, rfl, rfl, rfl, by simp [c7ReqA, c7ReqB, itemsRel, sameButQty]⟩⟩

/-- Remove one customization id from a request line. -/
def dropLine (cid : String) (oi : OrderItemReq) : OrderItemReq :=
  { oi with customizations := oi.customizations.filter (fun c => !(c.id == cid)) }

/-- Remove one customization id from every line of a request. -/
def dropCustId (cid : String) (req : OrderReq) : OrderReq :=
  { req with items := req.items.map (fun l => l.map (dropLine cid)) }

/-- A customization query over ids that all equal an id matching no stored
row returns nothing. -/
theorem lookupCustomizations_no_match (store : Store) (cid : String)
    (hno : ∀ o ∈ store.customization_options, o.id ≠ cid)
    (ids : List String) (hids : ∀ x ∈ ids, x = cid) :
    lookupCustomizations store ids = [] := by
  unfold lookupCustomizations
  rw [List.filter_eq_nil_iff]
  intro o ho
  simp only [Bool.not_eq_true]
  cases hc : ids.contains o.id with
  | false => rfl
  | true =>
    exfalso
    have : o.id ∈ ids := by simpa [List.elem_iff] using hc
    exact hno o ho (hids o.id this)

/-- Dropping an id that matches no stored row from a query's id list does
not change the rows returned. -/
theorem lookupCustomizations_drop (store : Store) (cid : String)
    (hno : ∀ o ∈ store.customization_options, o.id ≠ cid) (l : List CustSel) :
    lookupCustomizations store ((l.filter (fun c => !(c.id == cid))).map (fun c => c.id))
      = lookupCustomizations store (l.map (fun c => c.id)) := by
  unfold lookupCustomizations
  apply List.filter_congr
  intro o ho
  have hne := hno o ho
  cases hc : (l.map (fun c => c.id)).contains o.id with
  | true =>
    have hmem : o.id ∈ l.map (fun c => c.id) := by simpa [List.elem_iff] using hc
    obtain ⟨c, hcmem, hcid⟩ := List.mem_map.mp hmem
    have hcne : (!(c.id == cid)) = true := by
      rw [hcid]
      simp [hne]
    have hmem2 : o.id ∈ (l.filter (fun c => !(c.id == cid))).map (fun c => c.id) :=
      List.mem_map.mpr ⟨c, List.mem_filter.mpr ⟨hcmem, hcne⟩, hcid⟩
    simp [hmem2]
  | false =>
    cases hc2 : ((l.filter (fun c => !(c.id == cid))).map (fun c => c.id)).contains o.id with
    | false => rfl
    | true =>
      exfalso
      have hm2 : o.id ∈ (l.filter (fun c => !(c.id == cid))).map (fun c => c.id) := by
        simpa [List.elem_iff] using hc2
      obtain ⟨c, hcmem, hcid⟩ := List.mem_map.mp hm2
      have hm1 : o.id ∈ l.map (fun c => c.id) :=
        List.mem_map.mpr ⟨c, (List.mem_filter.mp hcmem).1, hcid⟩
      have hct : (l.map (fun c => c.id)).contains o.id = true := by simp [hm1]
      rw [hc] at hct
      cases hct

/-- Dropping an id that matches no stored row from a line leaves the
resolved line unchanged. -/
theorem resolveLine_dropCust (store : Store) (mis : List MenuItem) (cid : String)
    (hno : ∀ o ∈ store.customization_options, o.id ≠ cid) (oi : OrderItemReq) :
    (resolveLine store mis (dropLine cid oi)).1 = (resolveLine store mis oi).1 := by
  have hdet :
      (if (oi.customizations.filter (fun c => !(c.id == cid))).isEmpty then
          ([] : List CustDetail)
        else
          (lookupCustomizations store
            ((oi.customizations.filter (fun c => !(c.id == cid))).map (fun c => c.id))).map
            (fun o => { id := o.id, name := o.name, price := o.price }))
        = (if oi.customizations.isEmpty then ([] : List CustDetail)
          else (lookupCustomizations store (oi.customizations.map (fun c => c.id))).map
            (fun o => { id := o.id, name := o.name, price := o.price })) := by
    by_cases he : oi.customizations.isEmpty
    · rw [List.isEmpty_iff] at he
      simp [he]
    · by_cases hf : (oi.customizations.filter (fun c => !(c.id == cid))).isEmpty
      · rw [List.isEmpty_iff] at hf
        have hall : ∀ c ∈ oi.customizations, c.id = cid := by
          intro c hcmem
          have := List.filter_eq_nil_iff.mp hf c hcmem
          simpa using this
        have hlook : lookupCustomizations store (oi.customizations.map (fun c => c.id))
            = [] := by
          apply lookupCustomizations_no_match store cid hno
          intro x hx
          obtain ⟨c, hcmem, hcid⟩ := List.mem_map.mp hx
          exact hcid ▸ hall c hcmem
        simp [he, hf, hlook]
      · simp only [he, hf, Bool.false_eq_true, if_false]
        rw [lookupCustomizations_drop store cid hno]
  unfold resolveLine dropLine
  cases hf : mis.find? (fun x => x.id == oi.id) <;> simp_all

/-- Dropping an id that matches no stored row leaves the whole pricing-loop
result unchanged. -/
theorem resolveLines_dropCust (store : Store) (mis : List MenuItem) (cid : String)
    (hno : ∀ o ∈ store.customization_options, o.id ≠ cid) :
    ∀ l : List OrderItemReq,
      (resolveLines store mis (l.map (dropLine cid))).1 = (resolveLines store mis l).1
  | [] => rfl
  | a :: rest => by
    have hline := resolveLine_dropCust store mis cid hno a
    have htail := resolveLines_dropCust store mis cid hno rest
    simp only [List.map_cons]
    unfold resolveLines
    cases ha : resolveLine store mis (dropLine cid a) with
    | mk fa opsa =>
      cases hb : resolveLine store mis a with
      | mk fb opsb =>
        rw [ha, hb] at hline
        simp only at hline
        subst hline
        cases fa with
        | error e => rfl
        | ok ri =>
          cases hta : resolveLines store mis (rest.map (dropLine cid)) with
          | mk fta opsta =>
            cases htb : resolveLines store mis rest with
            | mk ftb opstb =>
              rw [hta, htb] at htail
              simp only at htail
              subst htail
              cases fta with
              | error e => rfl
              | ok v => cases v; rfl

/-- Claim C9: a selected customization id with no matching
`customization_options` row is silently excluded — removing it from the
request leaves the HTTP result unchanged (same status, same response, so it
causes no error and contributes zero price), and it appears in no resolved
line of any successful response. -/
theorem C9_unmatched_cust_id_dropped (store : Store) (restaurantId : String) (req : OrderReq)
    (orderId orderNumber nowIso : String) (cid : String)
    (hno : ∀ o ∈ store.customization_options, o.id ≠ cid) :
    (createOrder store restaurantId (dropCustId cid req) orderId orderNumber nowIso).1
      = (createOrder store restaurantId req orderId orderNumber nowIso).1 ∧
    (∀ resp ops, createOrder store restaurantId req orderId orderNumber nowIso
        = (.ok resp, ops) →
      ∀ ri ∈ resp.items, ∀ d ∈ ri.customizations, d.id ≠ cid) := by
  constructor
  · obtain ⟨cn, pn, ot, its, nts⟩ := req
    have hitems_eq : (dropCustId cid ⟨cn, pn, ot, its, nts⟩).items.getD []
        = ((⟨cn, pn, ot, its, nts⟩ : OrderReq).items.getD []).map (dropLine cid) := by
      cases its <;> rfl
    have hMOE : itemsMissingOrEmpty (dropCustId cid ⟨cn, pn, ot, its, nts⟩).items
        = itemsMissingOrEmpty (⟨cn, pn, ot, its, nts⟩ : OrderReq).items := by
      cases its with
      | none => rfl
      | some l => cases l <;> rfl
    set req : OrderReq := ⟨cn, pn, ot, its, nts⟩ with hreqdef
    have hreq : requestedIds (dropCustId cid req) = requestedIds req := by
      unfold requestedIds
      rw [hitems_eq, List.map_map]
      rfl
    have hname : (dropCustId cid req).customer_name = req.customer_name := rfl
    have hphone : (dropCustId cid req).phone_number = req.phone_number := rfl
    have hres := resolveLines_dropCust store
      (menuItemsFor store restaurantId (requestedIds req)) cid hno (req.items.getD [])
    unfold createOrder
    rw [hname, hphone, hMOE, hreq]
    by_cases hval : (!truthy req.customer_name || !truthy req.phone_number
        || itemsMissingOrEmpty req.items) = true
    · simp [hval]
    · simp only [hval, Bool.false_eq_true, if_false]
      cases hfind : store.restaurants.find? (fun r => r.id == restaurantId) with
      | none => rfl
      | some restaurant =>
        by_cases hav :
            (unavailableOf (menuItemsFor store restaurantId (requestedIds req))).isEmpty
        · simp only [hav, Bool.not_true, Bool.false_eq_true, if_false]
          rw [hitems_eq]
          cases ha : resolveLines store (menuItemsFor store restaurantId (requestedIds req))
              ((req.items.getD []).map (dropLine cid)) with
          | mk fa opsa =>
            cases hb : resolveLines store
                (menuItemsFor store restaurantId (requestedIds req))
                (req.items.getD []) with
            | mk fb opsb =>
              rw [ha, hb] at hres
              simp only at hres
              subst hres
              cases fa with
              | error e => rfl
              | ok v => cases v; rfl
        · simp only [Bool.not_eq_true] at hav
          simp [hav]
  · intro resp ops h ri hri d hd
    obtain ⟨restaurant, items, sub, lineOps, hrest, hresl, hresp, hops⟩ :=
      createOrder_ok store restaurantId req orderId orderNumber nowIso resp ops h
    rw [hresp] at hri
    simp only [mkOrderResponse] at hri
    obtain ⟨oi, _, lops, hl⟩ :=
      resolveLines_ok_items store _ _ items sub lineOps hresl ri hri
    obtain ⟨m, _, _, _, _, _, _, hdet⟩ := resolveLine_ok store _ oi ri lops hl
    obtain ⟨o, ho, hdo⟩ := hdet d hd
    rw [hdo]
    exact hno o ho

/-- Concrete data for the C9 witness: a request selecting the nonexistent
customization id `ghost`. -/
def c9Store : Store :=
  { restaurants := [{ id := "r1", name := "Demo", tax_rate := none }],
    menu_items :=
      [{ id := "i1", restaurant_id := "r1", name := "Burger", price := 10,
         is_available := true }],
    cust_categories := [], customization_options := [], orders := [] }

def c9Req : OrderReq :=
  { customer_name := some "Ana", phone_number := some "123", order_type := none,
    items := some [{ id := "i1", quantity := .num 1, client_name := none, client_price := none,
                     customizations := [{ id := "ghost", client_name := none,
                                          client_price := none }],
                     special_notes := none }],
    notes := none }

/-- Concrete application of C9 at a request carrying the unmatched id
`ghost`. -/
theorem C9_unmatched_cust_id_dropped_witness :
    (createOrder c9Store "r1" (dropCustId "ghost" c9Req) "oid" "UD1" "t").1
      = (createOrder c9Store "r1" c9Req "oid" "UD1" "t").1 ∧
    (∀ resp ops, createOrder c9Store "r1" c9Req "oid" "UD1" "t" = (.ok resp, ops) →
      ∀ ri ∈ resp.items, ∀ d ∈ ri.customizations, d.id ≠ "ghost") :=
  C9_unmatched_cust_id_dropped c9Store "r1" c9Req "oid" "UD1" "t" "ghost" (by simp [c9Store])

/-- Claim C10: the order-creation customization lookup filters by option id
only — any stored option whose id is selected is resolved into the line
(its detail recorded and its price a summand of the line total), with no
restaurant, menu-item, or availability restriction; by contrast, the GET
customizations endpoint returns only options with `is_available = true`. -/
theorem C10_cust_lookup_by_id_only (store : Store) (mis : List MenuItem) (oi : OrderItemReq)
    (o : CustomizationOption) (ri : ResolvedItem) (ops : List StoreOp)
    (ho : o ∈ store.customization_options)
    (hsel : o.id ∈ oi.customizations.map (fun c => c.id))
    (hok : resolveLine store mis oi = (.ok ri, ops)) :
    ({ id := o.id, name := o.name, price := o.price } : CustDetail) ∈ ri.customizations ∧
    ri.item_total
      = (ri.price + (ri.customizations.map (fun d => d.price)).sum) * (ri.quantity : ℚ) ∧
    (∀ (itemId : String) entry, entry ∈ getItemCustomizations store itemId →
      ∀ opt ∈ entry.2, opt.is_available = true) := by
  refine ⟨?_, ?_, ?_⟩
  · have hne : oi.customizations.isEmpty = false := by
      cases hc : oi.customizations with
      | nil => rw [hc] at hsel; simp at hsel
      | cons a t => simp
    unfold resolveLine at hok
    split at hok
    · simp at hok
    · simp only [Prod.mk.injEq, Except.ok.injEq] at hok
      obtain ⟨h1, _⟩ := hok
      subst h1
      simp only [hne, Bool.false_eq_true, if_false]
      refine List.mem_map.mpr ⟨o, ?_, rfl⟩
      exact List.mem_filter.mpr ⟨ho, by simp [List.elem_iff, hsel]⟩
  · obtain ⟨m, _, _, _, _, _, htot, _⟩ := resolveLine_ok store mis oi ri ops hok
    exact htot
  · intro itemId entry hentry opt hopt
    unfold getItemCustomizations at hentry
    by_cases hc : (store.cust_categories.filter (fun c => c.menu_item_id == itemId)).isEmpty
    · simp [hc] at hentry
    · simp only [hc, Bool.false_eq_true, if_false, List.mem_map] at hentry
      obtain ⟨c, _, hceq⟩ := hentry
      subst hceq
      simp only at hopt
      have hin := (List.mem_filter.mp hopt).1
      have h2 := (List.mem_filter.mp hin).2
      simp only [Bool.and_eq_true] at h2
      exact h2.2

/-- Concrete data for the C10 witness: option `oX` belongs to a category of
restaurant r2's item i2 and is unavailable, yet is resolved into an order
line of restaurant r1's item i1. -/
def c10Opt : CustomizationOption :=
  { id := "oX", category_id := "cat2", name := "Extra", price := 2, is_available := false }

def c10Cat : CustCategory := { id := "cat2", menu_item_id := "i2" }

def c10Store : Store :=
  { restaurants :=
      [{ id := "r1", name := "A", tax_rate := none },
       { id := "r2", name := "B", tax_rate := none }],
    menu_items :=
      [{ id := "i1", restaurant_id := "r1", name := "Burger", price := 5,
         is_available := true },
       { id := "i2", restaurant_id := "r2", name := "Pasta", price := 9,
         is_available := true }],
    cust_categories := [c10Cat],
    customization_options := [c10Opt],
    orders := [] }

def c10Line : OrderItemReq :=
  { id := "i1", quantity := .num 1, client_name := none, client_price := none,
    customizations := [{ id := "oX", client_name := none, client_price := none }],
    special_notes := none }

def c10Ri : ResolvedItem :=
  { id := "i1", name := "Burger", price := 5, quantity := 1,
    customizations := [{ id := "oX", name := "Extra", price := 2 }],
    special_notes := "", item_total := 7 }

/-- Full evaluation of `resolveLine` on the C10 input. -/
theorem c10_eval :
    resolveLine c10Store (menuItemsFor c10Store "r1" ["i1"]) c10Line
      = (.ok c10Ri, [.selectCustomizations ["oX"]]) := by
  norm_num [resolveLine, menuItemsFor, lookupCustomizations, coerceQty, jsParseInt,
    c10Store, c10Line, c10Ri, c10Opt, List.find?, List.filter]

/-- Concrete application of C10: the unavailable, cross-restaurant option
`oX` is included and priced; the GET endpoint filter is also exercised. -/
theorem C10_cust_lookup_by_id_only_witness :
    (({ id := "oX", name := "Extra", price := 2 } : CustDetail) ∈ c10Ri.customizations ∧
      c10Ri.item_total
        = (c10Ri.price + (c10Ri.customizations.map (fun d => d.price)).sum)
            * (c10Ri.quantity : ℚ) ∧
      (∀ (itemId : String) entry, entry ∈ getItemCustomizations c10Store itemId →
        ∀ opt ∈ entry.2, opt.is_available = true)) ∧
    c10Opt.is_available = false ∧ c10Cat.menu_item_id = "i2" :=
  ⟨C10_cust_lookup_by_id_only c10Store (menuItemsFor c10Store "r1" ["i1"]) c10Line c10Opt
      c10Ri [.selectCustomizations ["oX"]]
      (by simp [c10Store]) (by simp [c10Line, c10Opt]) c10_eval,
   rfl, rfl⟩

/-- Two customization selections with the same id (client-attached name or
price fields may differ). -/
def custSelIdEq (a b : CustSel) : Prop := a.id = b.id

/-- Two request lines that agree on everything the server reads — id,
quantity, customization ids, note — and may differ in client-supplied
name/price fields. -/
def sameLineCore (a b : OrderItemReq) : Prop :=
  a.id = b.id ∧ a.quantity = b.quantity ∧
  List.Forall₂ custSelIdEq a.customizations b.customizations ∧
  a.special_notes = b.special_notes

/-- Two creation requests that differ only in client-supplied price or name
fields attached to item or customization entries. -/
def sameModuloClientPricing (r1 r2 : OrderReq) : Prop :=
  r1.customer_name = r2.customer_name ∧ r1.phone_number = r2.phone_number ∧
  r1.order_type = r2.order_type ∧ r1.notes = r2.notes ∧
  itemsRel sameLineCore r1.items r2.items

/-- Line resolution reads only the core of a line: client-supplied price
and name fields have no effect. -/
theorem resolveLine_clientEq (store : Store) (mis : List MenuItem)
    {a b : OrderItemReq} (h : sameLineCore a b) :
    resolveLine store mis a = resolveLine store mis b := by
  obtain ⟨h1, h2, h3, h4⟩ := h
  have hmap : a.customizations.map (fun c => c.id) = b.customizations.map (fun c => c.id) :=
    forall2_map_eq custSelIdEq _ _ (fun x y hxy => hxy) h3
  have hemp : a.customizations.isEmpty = b.customizations.isEmpty := by
    cases hca : a.customizations <;> cases hcb : b.customizations <;>
      rw [hca, hcb] at h3 <;> first | rfl | cases h3
  unfold resolveLine
  simp only [h1, h2, h4, hmap, hemp]

/-- The whole pricing loop reads only the cores of the lines. -/
theorem resolveLines_clientEq (store : Store) (mis : List MenuItem) :
    ∀ l1 l2, List.Forall₂ sameLineCore l1 l2 →
      resolveLines store mis l1 = resolveLines store mis l2
  | [], [], _ => rfl
  | [], _ :: _, h => by cases h
  | _ :: _, [], h => by cases h
  | a :: t1, b :: t2, h => by
    obtain ⟨hab, ht⟩ := List.forall₂_cons.mp h
    unfold resolveLines
    simp only [resolveLine_clientEq store mis hab, resolveLines_clientEq store mis t1 t2 ht]

/-- Claim C1: two creation requests that differ only in client-supplied
price (or name) fields attached to item or customization entries produce
identical results — same per-line totals, subtotal, tax, total, persisted
row, and store trace.  Unit prices come solely from the stored
`menu_items` and `customization_options` rows matched by id. -/
theorem C1_client_prices_ignored (store : Store) (restaurantId : String) (r1 r2 : OrderReq)
    (orderId orderNumber nowIso : String) (h : sameModuloClientPricing r1 r2) :
    createOrder store restaurantId r1 orderId orderNumber nowIso
      = createOrder store restaurantId r2 orderId orderNumber nowIso := by
  obtain ⟨hname, hphone, htype, hnotes, hitems⟩ := h
  have hgetD : List.Forall₂ sameLineCore (r1.items.getD []) (r2.items.getD []) := by
    cases hi1 : r1.items with
    | none =>
      cases hi2 : r2.items with
      | none => exact List.Forall₂.nil
      | some l2 => rw [hi1, hi2] at hitems; cases hitems
    | some l1 =>
      cases hi2 : r2.items with
      | none => rw [hi1, hi2] at hitems; cases hitems
      | some l2 => rw [hi1, hi2] at hitems; simpa [itemsRel] using hitems
  have hMOE : itemsMissingOrEmpty r1.items = itemsMissingOrEmpty r2.items := by
    cases hi1 : r1.items with
    | none =>
      cases hi2 : r2.items with
      | none => rfl
      | some l2 => rw [hi1, hi2] at hitems; cases hitems
    | some l1 =>
      cases hi2 : r2.items with
      | none => rw [hi1, hi2] at hitems; cases hitems
      | some l2 =>
        rw [hi1, hi2] at hitems
        have hlen : l1.length = l2.length :=
          List.Forall₂.length_eq (by simpa [itemsRel] using hitems)
        cases l1 <;> cases l2 <;> simp_all [itemsMissingOrEmpty]
  have hreq : requestedIds r1 = requestedIds r2 := by
    unfold requestedIds
    exact forall2_map_eq sameLineCore _ _ (fun a b hab => hab.1) hgetD
  have hres : resolveLines store (menuItemsFor store restaurantId (requestedIds r2))
        (r1.items.getD [])
      = resolveLines store (menuItemsFor store restaurantId (requestedIds r2))
        (r2.items.getD []) :=
    resolveLines_clientEq store _ _ _ hgetD
  have hrow : ∀ (restaurant : Restaurant) (items : List ResolvedItem) (sub : ℚ),
      mkOrderRow restaurant restaurantId r1 orderId orderNumber nowIso items sub
        = mkOrderRow restaurant restaurantId r2 orderId orderNumber nowIso items sub := by
    intro restaurant items sub
    unfold mkOrderRow
    rw [hname, hphone, htype, hnotes]
  unfold createOrder
  simp only [hname, hphone, hMOE, hreq, hres, hrow]

/-- Concrete data for the C1 witness: the second request attaches forged
price/name fields to the same item and customization ids. -/
def c1Store : Store :=
  { restaurants := [{ id := "r1", name := "Demo", tax_rate := none }],
    menu_items :=
      [{ id := "i1", restaurant_id := "r1", name := "Burger", price := 10,
         is_available := true }],
    cust_categories := [],
    customization_options :=
      [{ id := "c1", category_id := "cat1", name := "Cheese", price := 1,
         is_available := true }],
    orders := [] }

def c1ReqA : OrderReq :=
  { customer_name := some "Ana", phone_number := some "123", order_type := none,
    items := some [{ id := "i1", quantity := .num 2, client_name := none, client_price := none,
                     customizations := [{ id := "c1", client_name := none,
                                          client_price := none }],
                     special_notes := none }],
    notes := none }

def c1ReqB : OrderReq :=
  { customer_name := some "Ana", phone_number := some "123", order_type := none,
    items := some [{ id := "i1", quantity := .num 2, client_name := some "Hack",
                     client_price := some (1 / 100),
                     customizations := [{ id := "c1", client_name := some "Free",
                                          client_price := some 0 }],
                     special_notes := none }],
    notes := none }

/-- Concrete application of C1: forged client prices leave the result
unchanged. -/
theorem C1_client_prices_ignored_witness :
    createOrder c1Store "r1" c1ReqA "oid" "UD1" "t"
      = createOrder c1Store "r1" c1ReqB "oid" "UD1" "t" :=
  C1_client_prices_ignored c1Store "r1" c1ReqA c1ReqB "oid" "UD1" "t"
    ⟨rfl, rfl, rfl, rfl, by simp [c1ReqA, c1ReqB, itemsRel, sameLineCore, custSelIdEq]⟩

end TapServe
